import Mathlib

/-!
Shallow embedding of `fastNLP/io/file_utils.py`: the download-and-cache
pipeline (`cached_path`, `get_from_cache`, `get_filepath`, `match_file`,
`split_filename_suffix`).  Filesystem trees are modelled explicitly, the
network and archive collaborators are oracles supplied through `FetchEnv`,
and every Python-level exception is an explicit `Err` value.
-/

/-- A filesystem node: a regular file with byte content, or a directory
with an ordered listing of named children. -/
inductive FsTree where
  | file (content : String)
  | dir (children : List (String × FsTree))

/-- Python-level exceptions raised by the code under study. -/
inductive Err where
  | httpError (msg : String)
  | extractionError
  | copyError
  | attributeError (msg : String)
  | runtimeError (files : List String)
  | fileNotFound (msg : String)
  | valueError (msg : String)
deriving DecidableEq

/-- Index of the last occurrence of `c` in `cs`, if any. -/
def lastIndexOf (c : Char) (cs : List Char) : Option Nat :=
  match cs.reverse.findIdx? (fun x => x == c) with
  | some j => some (cs.length - 1 - j)
  | none => none

/-- Embeds `os.path.basename`: the part after the last path separator. -/
def pyBasename (s : String) : String :=
  match lastIndexOf '/' s.toList with
  | some i => String.mk (s.toList.drop (i + 1))
  | none => s

/-- Embeds `os.path.splitext`: split off the last extension of the final
path segment; a segment consisting only of leading dots has no extension. -/
def pySplitext (s : String) : String × String :=
  let cs := s.toList
  let start := match lastIndexOf '/' cs with
    | some j => j + 1
    | none => 0
  match lastIndexOf '.' cs with
  | none => (s, "")
  | some i =>
    if i < start then (s, "")
    else if ((cs.drop start).take (i - start)).all (fun x => x == '.') then (s, "")
    else (String.mk (cs.take i), String.mk (cs.drop i))

/-- Character-list version of `String.endsWith`, kept kernel-reducible. -/
def strEndsWith (s suffix : String) : Bool :=
  suffix.toList.isSuffixOf s.toList

/-- Embeds `split_filename_suffix`: special-case the two-part `.tar.gz`
suffix of the basename, otherwise fall back to `os.path.splitext`. -/
def split_filename_suffix (filepath : String) : String × String :=
  let filename := pyBasename filepath
  if strEndsWith filename ".tar.gz" then
    (String.mk (filename.toList.take (filename.toList.length - 7)), ".tar.gz")
  else pySplitext filename

/-- Embeds `re.sub(r".+/", "", url)`: greedy, so it strips through the
last slash, provided at least one character precedes a slash. -/
def stripDirsPrefix (url : String) : String :=
  match lastIndexOf '/' url.toList with
  | some i => if 1 ≤ i then String.mk (url.toList.drop (i + 1)) else url
  | none => url

/-- Atom of the regex fragment used by `match_file`: a literal character
or the `.` wildcard. -/
inductive RAtom where
  | lit (c : Char)
  | any

/-- Element of a parsed regex: an atom, a quantified atom, or the `$`
end-of-input anchor. -/
inductive RElem where
  | once (a : RAtom)
  | star (a : RAtom)
  | plus (a : RAtom)
  | opt (a : RAtom)
  | eol

/-- Does atom `a` match character `c`?  Python's `.` matches every
character except a newline. -/
def amatch : RAtom → Char → Bool
  | .any, c => !(c == '\n')
  | .lit a, c => a == c

/-- Backtracking loop for a starred atom: either hand the remaining input
to the continuation `k`, or consume one more matching character. -/
def starRun (am : Char → Bool) (k : List Char → Bool) : List Char → Bool
  | [] => k []
  | c :: s => k (c :: s) || (am c && starRun am k s)

/-- Backtracking matcher for the regex fragment; `re.match` semantics, so
a match of a prefix of the input suffices. -/
def rmatch : List RElem → List Char → Bool
  | [], _ => true
  | .eol :: ps, s => s.isEmpty && rmatch ps s
  | .once _ :: _, [] => false
  | .once a :: ps, c :: s => amatch a c && rmatch ps s
  | .star a :: ps, s => starRun (amatch a) (rmatch ps) s
  | .plus _ :: _, [] => false
  | .plus a :: ps, c :: s => amatch a c && starRun (amatch a) (rmatch ps) s
  | .opt _ :: ps, [] => rmatch ps []
  | .opt a :: ps, c :: s => rmatch ps (c :: s) || (amatch a c && rmatch ps s)

/-- Atom denoted by an unescaped pattern character. -/
def atomOf (c : Char) : RAtom :=
  if c == '.' then RAtom.any else RAtom.lit c

/-- Parser for the regex fragment exercised by `match_file`: literal
characters, the `.` wildcard, backslash escapes, the postfix quantifiers
`*`, `+`, `?`, and the `$` anchor.  Grouping and character classes fall
outside the fragment the program generates and are not modelled. -/
def parseRegex : List Char → Option (List RElem)
  | [] => some []
  | '\\' :: rest =>
    match rest with
    | [] => none
    | c :: '*' :: r => (parseRegex r).map (fun ps => RElem.star (RAtom.lit c) :: ps)
    | c :: '+' :: r => (parseRegex r).map (fun ps => RElem.plus (RAtom.lit c) :: ps)
    | c :: '?' :: r => (parseRegex r).map (fun ps => RElem.opt (RAtom.lit c) :: ps)
    | c :: r => (parseRegex r).map (fun ps => RElem.once (RAtom.lit c) :: ps)
  | '$' :: rest => (parseRegex rest).map (fun ps => RElem.eol :: ps)
  | '*' :: _ => none
  | '+' :: _ => none
  | '?' :: _ => none
  | c :: '*' :: r => (parseRegex r).map (fun ps => RElem.star (atomOf c) :: ps)
  | c :: '+' :: r => (parseRegex r).map (fun ps => RElem.plus (atomOf c) :: ps)
  | c :: '?' :: r => (parseRegex r).map (fun ps => RElem.opt (atomOf c) :: ps)
  | c :: r => (parseRegex r).map (fun ps => RElem.once (atomOf c) :: ps)

/-- Embeds `re.match(pattern, s)` as a Boolean for the fragment above. -/
def reMatch (pattern : String) (s : String) : Bool :=
  match parseRegex pattern.toList with
  | some ps => rmatch ps s.toList
  | none => false

/-- Embeds `match_file(dir_name, cache_dir)` over the listing of
`cache_dir`: keep the entries matched by `re.match(dir_name + "$", f)` or
`re.match(dir_name + "\\..*", f)`; zero matches yield the empty string,
one match yields it, several raise `RuntimeError` (carried here as the
list of duplicate matches). -/
def match_file (dirName : String) (files : List String) : Except (List String) String :=
  match files.filter (fun f => reMatch (dirName ++ "$") f || reMatch (dirName ++ "\\..*") f) with
  | [] => Except.ok ""
  | [f] => Except.ok f
  | fs => Except.error fs

/-- Lookup in a directory listing, first match by name (`os.listdir`
order). -/
def findEntry : List (String × FsTree) → String → Option FsTree
  | [], _ => none
  | (n, t) :: rest, k => if n = k then some t else findEntry rest k

/-- Write an entry into a directory listing, replacing an existing entry
of that name in place or appending a fresh one. -/
def setEntry : List (String × FsTree) → String → FsTree → List (String × FsTree)
  | [], k, v => [(k, v)]
  | (n, t) :: rest, k, v => if n = k then (k, v) :: rest else (n, t) :: setEntry rest k v

/-- Delete an entry (`os.remove` / `shutil.rmtree` on a child). -/
def removeEntry : List (String × FsTree) → String → List (String × FsTree)
  | [], _ => []
  | (n, t) :: rest, k => if n = k then rest else (n, t) :: removeEntry rest k

/-- Resolve a path below a filesystem node. -/
def FsTree.lookup : FsTree → List String → Option FsTree
  | t, [] => some t
  | t, n :: rest =>
    match t with
    | .file _ => none
    | .dir cs =>
      match findEntry cs n with
      | some c => c.lookup rest
      | none => none

/-- Listing of the directory at a path; a missing or file path lists as
empty (the cache root is created by `mkdir(parents=True, exist_ok=True)`
before it is read). -/
def childrenAt (fs : FsTree) (p : List String) : List (String × FsTree) :=
  match fs.lookup p with
  | some (.dir cs) => cs
  | _ => []

/-- Render a segment path the way the Python code renders a `Path`. -/
def pathStr : List String → String
  | [] => ""
  | [s] => s
  | s :: rest => s ++ "/" ++ pathStr rest

/-- Embeds `get_filepath(filepath)` given what the path points to: a
directory with exactly one child yields the child's path, any other
directory yields the path itself, a file yields the path itself, and a
missing path raises `FileNotFoundError`. -/
def get_filepath_node (node : Option FsTree) (p : List String) : Except Err (List String) :=
  match node with
  | some (.dir cs) =>
    match cs with
    | [c] => Except.ok (p ++ [c.1])
    | _ => Except.ok p
  | some (.file _) => Except.ok p
  | none => Except.error (Err.fileNotFound (pathStr p ++ " is not a valid file or directory."))

/-- Embeds `get_filepath` against a filesystem. -/
def get_filepath (fs : FsTree) (p : List String) : Except Err (List String) :=
  get_filepath_node (fs.lookup p) p

/-- Oracle for the external collaborators of one fetch: the HTTP status
and body of the streaming GET, the outcome of archive extraction (`none`
models a raising `unzip_file` / `untar_gz_file`, `some items` the listing
of the scratch directory afterwards), and an injected fault position for
the copy loop of the install phase (`some k` makes the `k`-th copy
operation raise; an out-of-range `k` means no fault). -/
structure FetchEnv where
  status : Nat
  content : String
  extracted : Option (List (String × FsTree))
  copyFault : Option Nat

/-- Observable outcome of `get_from_cache`: the returned path or raised
exception, the final listing of the cache directory, whether the scratch
download file and scratch extraction directory still exist on disk, and
whether the GET was issued / an extraction was attempted. -/
structure FetchResult where
  result : Except Err (List String)
  cache : List (String × FsTree)
  scratchFileExists : Bool
  scratchDirExists : Bool
  networkUsed : Bool
  extractionAttempted : Bool

/-- Embeds lines 298-301 of `get_from_cache`: if the extracted listing is
exactly one entry and that entry is a directory, that directory becomes
the effective extraction root. -/
def collapseChildren (items : List (String × FsTree)) : List (String × FsTree) :=
  match items with
  | [(_, .dir inner)] => inner
  | _ => items

/-- Successful install of an extracted archive: the destination directory
is created and every child of the extraction root is copied into it; the
scratch file and scratch directory are then removed and
`get_filepath(cache_path)` is returned. -/
def installArchive (p : List String) (cache : List (String × FsTree)) (dirName : String)
    (root : List (String × FsTree)) : FetchResult :=
  { result := get_filepath_node (some (.dir root)) (p ++ [dirName])
    cache := setEntry cache dirName (.dir root)
    scratchFileExists := false
    scratchDirExists := false
    networkUsed := true
    extractionAttempted := true }

/-- Successful install of a non-archive download: the scratch file is
copied to the suffixed destination name, the scratch file is removed and
`get_filepath(cache_path)` is returned. -/
def installFile (p : List String) (cache : List (String × FsTree)) (destName : String)
    (content : String) : FetchResult :=
  { result := get_filepath_node (some (.file content)) (p ++ [destName])
    cache := setEntry cache destName (.file content)
    scratchFileExists := false
    scratchDirExists := false
    networkUsed := true
    extractionAttempted := false }

/-- Embeds lines 268-337 of `get_from_cache`, the phase after a cache
miss: create the scratch file, issue the GET (non-200 raises `HTTPError`
with the scratch file left behind), extract archives into a scratch
directory (a raising extraction leaves both scratch file and scratch
directory behind), then copy into the cache under `try/finally`.  A copy
fault on an archive triggers the `finally` cleanup: destination removed,
scratch directory and file removed, original error re-raised.  A copy
fault on a non-archive reaches `cache_path.exists()` on a plain string
(line 307 rebound `cache_path` to `str`), so the cleanup itself raises
`AttributeError`, leaving the partial destination (modelled as an
interrupted empty write) and the scratch file behind. -/
def downloadPhase (url : String) (p : List String) (cache : List (String × FsTree))
    (env : FetchEnv) (dirName suffix : String) : FetchResult :=
  if env.status = 200 then
    if suffix = ".zip" ∨ suffix = ".tar.gz" then
      match env.extracted with
      | none =>
        { result := Except.error Err.extractionError
          cache := cache
          scratchFileExists := true
          scratchDirExists := true
          networkUsed := true
          extractionAttempted := true }
      | some items =>
        match env.copyFault with
        | some k =>
          if k < (collapseChildren items).length then
            { result := Except.error Err.copyError
              cache := removeEntry
                (setEntry cache dirName (.dir ((collapseChildren items).take k))) dirName
              scratchFileExists := false
              scratchDirExists := false
              networkUsed := true
              extractionAttempted := true }
          else installArchive p cache dirName (collapseChildren items)
        | none => installArchive p cache dirName (collapseChildren items)
    else
      match env.copyFault with
      | some k =>
        if k < 1 then
          { result := Except.error (Err.attributeError "str object has no attribute exists")
            cache := setEntry cache (dirName ++ suffix) (.file "")
            scratchFileExists := true
            scratchDirExists := false
            networkUsed := true
            extractionAttempted := false }
        else installFile p cache (dirName ++ suffix) env.content
      | none => installFile p cache (dirName ++ suffix) env.content
  else
    { result := Except.error (Err.httpError ("Fail to download from " ++ url ++ "."))
      cache := cache
      scratchFileExists := true
      scratchDirExists := false
      networkUsed := true
      extractionAttempted := false }

/-- Embeds `get_from_cache(url, cache_dir)`: derive the base name and
suffix from the URL, run `match_file` over the cache listing (a duplicate
match raises `RuntimeError`), take the matched name as the entry name if
one was found, return `get_filepath` of the entry on a hit, and otherwise
run the download phase.  `p` is the path of `cache_dir`, `cache` its
listing. -/
def get_from_cache (url : String) (p : List String) (cache : List (String × FsTree))
    (env : FetchEnv) : FetchResult :=
  match match_file (split_filename_suffix (stripDirsPrefix url)).1 (cache.map Prod.fst) with
  | Except.error dups =>
    { result := Except.error (Err.runtimeError dups)
      cache := cache
      scratchFileExists := false
      scratchDirExists := false
      networkUsed := false
      extractionAttempted := false }
  | Except.ok m =>
    match findEntry cache (if m = "" then (split_filename_suffix (stripDirsPrefix url)).1 else m) with
    | some node =>
      { result := get_filepath_node (some node)
          (p ++ [if m = "" then (split_filename_suffix (stripDirsPrefix url)).1 else m])
        cache := cache
        scratchFileExists := false
        scratchDirExists := false
        networkUsed := false
        extractionAttempted := false }
    | none =>
      downloadPhase url p cache env
        (if m = "" then (split_filename_suffix (stripDirsPrefix url)).1 else m)
        (split_filename_suffix (stripDirsPrefix url)).2

/-- Is `c` legal inside a URL scheme after the first character? -/
def schemeChar (c : Char) : Bool :=
  c.isAlphanum || c == '+' || c == '-' || c == '.'

/-- Embeds the scheme extraction of `urllib.parse.urlparse`: the part
before the first colon, lower-cased, when it starts with a letter and
contains only scheme characters; the empty string otherwise. -/
def urlScheme (s : String) : String :=
  match s.toList.findIdx? (fun c => c == ':') with
  | none => ""
  | some i =>
    let pre := s.toList.take i
    match pre with
    | [] => ""
    | c :: _ =>
      if c.isAlpha && pre.all schemeChar then String.mk (pre.map Char.toLower) else ""

/-- Split a character list on slashes, accumulating the current segment
in reverse. -/
def splitSlashAux : List Char → List Char → List String
  | [], acc => [String.mk acc.reverse]
  | '/' :: rest, acc => String.mk acc.reverse :: splitSlashAux rest []
  | c :: rest, acc => splitSlashAux rest (c :: acc)

/-- Split a relative path string on slashes into non-empty segments. -/
def pathSegs (s : String) : List String :=
  (splitSlashAux s.toList []).filter (fun x => x ≠ "")

/-- Embeds `os.path.join(data_cache, s)`: an absolute `s` replaces the
base, a relative one is appended. -/
def joinRel (base : List String) (s : String) : List String :=
  match s.toList with
  | '/' :: _ => pathSegs s
  | _ => base ++ pathSegs s

/-- The effective cache directory of `cached_path`: the base cache path
with the optional namespace appended (Python truthiness: an empty-string
name adds no segment). -/
def effectiveCache (dataCachePath : List String) (name : Option String) : List String :=
  match name with
  | some n => if n = "" then dataCachePath else dataCachePath ++ [n]
  | none => dataCachePath

/-- Embeds `cached_path(url_or_filename, cache_dir, name)` over a world
filesystem `fs` with the resolved cache base at `dataCachePath`: an
`http`/`https` identifier is delegated to `get_from_cache` against the
effective cache directory; an empty-scheme identifier whose joined path
exists is returned directly; an empty-scheme identifier whose joined path
is missing raises `FileNotFoundError`; any other scheme raises
`ValueError`. -/
def cached_path (fs : FsTree) (dataCachePath : List String) (name : Option String)
    (idStr : String) (env : FetchEnv) : Except Err (List String) :=
  if urlScheme idStr = "http" ∨ urlScheme idStr = "https" then
    (get_from_cache idStr (effectiveCache dataCachePath name)
      (childrenAt fs (effectiveCache dataCachePath name)) env).result
  else if urlScheme idStr = "" then
    if (fs.lookup (joinRel (effectiveCache dataCachePath name) idStr)).isSome then
      Except.ok (joinRel (effectiveCache dataCachePath name) idStr)
    else
      Except.error (Err.fileNotFound
        ("file " ++ idStr ++ " not found in " ++ pathStr (effectiveCache dataCachePath name) ++ "."))
  else
    Except.error (Err.valueError ("unable to parse " ++ idStr ++ " as a URL or as a local path"))

example : split_filename_suffix "archive.tar.gz" = ("archive", ".tar.gz") := by rfl
example : split_filename_suffix "data.json" = ("data", ".json") := by rfl
example : stripDirsPrefix "http://host/a/b.zip" = "b.zip" := by rfl
example : match_file "food" ["foo.txt"] = Except.ok "" := by rfl
example : match_file "foo" ["foo.zip"] = Except.ok "foo.zip" := by rfl
example : match_file "foo" ["foo.zip", "foo.tar.gz"] = Except.error ["foo.zip", "foo.tar.gz"] := by rfl
example : match_file "a.b" ["axb"] = Except.ok "axb" := by rfl
example : match_file "a*b" ["a*b.json"] = Except.ok "" := by rfl


theorem string_append_empty (s : String) : s ++ "" = s := by
  cases s with
  | mk data => show String.mk (data ++ []) = String.mk data
               rw [List.append_nil]

theorem findEntry_setEntry_self (cache : List (String × FsTree)) (k : String) (v : FsTree) :
    findEntry (setEntry cache k v) k = some v := by
  induction cache with
  | nil => simp [setEntry, findEntry]
  | cons hd tl ih =>
    obtain ⟨n, tr⟩ := hd
    by_cases hn : n = k
    · simp [setEntry, findEntry, hn]
    · simp [setEntry, findEntry, hn, ih]

theorem collapseChildren_eq_self (items : List (String × FsTree))
    (h : ∀ (a : String) (t : List (String × FsTree)), items ≠ [(a, FsTree.dir t)]) :
    collapseChildren items = items := by
  unfold collapseChildren
  split
  · exact absurd rfl (h _ _)
  · rfl

theorem get_from_cache_miss (url : String) (p : List String) (cache : List (String × FsTree))
    (env : FetchEnv) (dn sfx : String)
    (h1 : split_filename_suffix (stripDirsPrefix url) = (dn, sfx))
    (h2 : match_file dn (cache.map Prod.fst) = Except.ok "")
    (h3 : findEntry cache dn = none) :
    get_from_cache url p cache env = downloadPhase url p cache env dn sfx := by
  unfold get_from_cache
  rw [h1]
  simp [h2, h3]

/-- C8: `split_filename_suffix` special-cases the two-part `.tar.gz`
suffix before falling back to the last single extension of the trailing
path segment: `split("archive.tar.gz")` yields base `archive` with suffix
`.tar.gz` (not base `archive.tar` with suffix `.gz`), and
`split("data.json")` yields base `data` with suffix `.json`. -/
theorem c8_split_filename_suffix_examples :
    split_filename_suffix "archive.tar.gz" = ("archive", ".tar.gz") ∧
    split_filename_suffix "data.json" = ("data", ".json") ∧
    split_filename_suffix "weird.json.tar.gz" = ("weird.json", ".tar.gz") :=
  ⟨rfl, rfl, rfl⟩

/-- C3: `match_file` behaves as claimed on the spec's three examples, but
its selection rule is not "equal to the base name, or the base name
followed by a literal dot and a suffix": the base name is handed to
`re.match` as a regular expression, so against base name `a.b` the
listing entry `axb` — neither equal to `a.b` nor starting with `a.b.` —
is selected (the dot matches any character). -/
theorem c3_match_file_is_regex_not_literal :
    match_file "food" ["foo.txt"] = Except.ok "" ∧
    match_file "foo" ["foo.zip"] = Except.ok "foo.zip" ∧
    match_file "foo" ["foo.zip", "foo.tar.gz"] = Except.error ["foo.zip", "foo.tar.gz"] ∧
    match_file "a.b" ["axb"] = Except.ok "axb" ∧
    "axb" ≠ "a.b" ∧
    ("a.b.".toList.isPrefixOf "axb".toList) = false :=
  ⟨rfl, rfl, rfl, rfl, by decide, rfl⟩

/-- C10: `get_filepath` on an existing directory with zero children
returns the directory path itself (single-child unwrapping needs child
count exactly one), and on a path that is neither an existing file nor an
existing directory it raises `FileNotFoundError` instead of returning a
path. -/
theorem c10_get_filepath_empty_dir_and_missing (fs : FsTree) (p q : List String)
    (hp : fs.lookup p = some (FsTree.dir []))
    (hq : fs.lookup q = none) :
    get_filepath fs p = Except.ok p ∧
    get_filepath fs q
      = Except.error (Err.fileNotFound (pathStr q ++ " is not a valid file or directory.")) := by
  constructor
  · unfold get_filepath
    rw [hp]
    rfl
  · unfold get_filepath
    rw [hq]
    rfl

/-- Witness for C10 at a concrete filesystem: an empty directory `e` and
a missing name. -/
theorem c10_get_filepath_witness :
    get_filepath (FsTree.dir [("e", FsTree.dir [])]) ["e"] = Except.ok ["e"] ∧
    get_filepath (FsTree.dir [("e", FsTree.dir [])]) ["missing"]
      = Except.error (Err.fileNotFound "missing is not a valid file or directory.") :=
  c10_get_filepath_empty_dir_and_missing (FsTree.dir [("e", FsTree.dir [])]) ["e"] ["missing"]
    rfl rfl

/-- C5 counterexample: with the effective base directory `cache` holding
the directory `d` with exactly one child `f`, `cached_path` on the bare
identifier `d` returns the directory path itself — not the child path
`cache/d/f` that the claimed single-child resolution would produce. -/
theorem c5_counterexample_no_ambiguity_resolution :
    cached_path (FsTree.dir [("cache", FsTree.dir [("d", FsTree.dir [("f", FsTree.file "x")])])])
      ["cache"] none "d" ⟨200, "", none, none⟩ = Except.ok ["cache", "d"] ∧
    (["cache", "d"] : List String) ≠ ["cache", "d", "f"] :=
  ⟨rfl, by decide⟩

/-- C5 amended: for every identifier with empty scheme whose path joined
under the effective base directory exists, `cached_path` returns the
joined path itself, directly — no directory-vs-file ambiguity resolution
is applied on this branch (`get_filepath` is not called). -/
theorem c5_amended_bare_path_returned_directly (fs : FsTree) (base : List String)
    (name : Option String) (s : String) (env : FetchEnv)
    (hscheme : urlScheme s = "")
    (hex : (fs.lookup (joinRel (effectiveCache base name) s)).isSome = true) :
    cached_path fs base name s env = Except.ok (joinRel (effectiveCache base name) s) := by
  unfold cached_path
  rw [hscheme]
  simp [hex]

/-- Witness for the amended C5 at a concrete filesystem. -/
theorem c5_amended_witness :
    cached_path (FsTree.dir [("base", FsTree.dir [("v.txt", FsTree.file "w")])])
      ["base"] none "v.txt" ⟨200, "", none, none⟩ = Except.ok ["base", "v.txt"] :=
  c5_amended_bare_path_returned_directly
    (FsTree.dir [("base", FsTree.dir [("v.txt", FsTree.file "w")])])
    ["base"] none "v.txt" ⟨200, "", none, none⟩ rfl rfl

/-- C6: a fetch that reaches the streaming GET (cache miss) and receives
a status other than 200 raises `HTTPError` and installs nothing — the
cache listing is unchanged. -/
theorem c6_non200_aborts_installs_nothing (url : String) (p : List String)
    (cache : List (String × FsTree)) (env : FetchEnv) (dn sfx : String)
    (h1 : split_filename_suffix (stripDirsPrefix url) = (dn, sfx))
    (h2 : match_file dn (cache.map Prod.fst) = Except.ok "")
    (h3 : findEntry cache dn = none)
    (hs : env.status ≠ 200) :
    (get_from_cache url p cache env).result
      = Except.error (Err.httpError ("Fail to download from " ++ url ++ ".")) ∧
    (get_from_cache url p cache env).cache = cache ∧
    (get_from_cache url p cache env).networkUsed = true := by
  rw [get_from_cache_miss url p cache env dn sfx h1 h2 h3]
  unfold downloadPhase
  rw [if_neg hs]
  exact ⟨rfl, rfl, rfl⟩

/-- Witness for C6: a concrete 404 fetch into an empty cache. -/
theorem c6_witness :
    (get_from_cache "http://host/m.zip" ["c"] [] ⟨404, "", none, none⟩).result
      = Except.error (Err.httpError "Fail to download from http://host/m.zip.") ∧
    (get_from_cache "http://host/m.zip" ["c"] [] ⟨404, "", none, none⟩).cache = [] ∧
    (get_from_cache "http://host/m.zip" ["c"] [] ⟨404, "", none, none⟩).networkUsed = true :=
  c6_non200_aborts_installs_nothing "http://host/m.zip" ["c"] [] ⟨404, "", none, none⟩
    "m" ".zip" rfl rfl rfl (by decide)

/-- C1 counterexample: a fetch of an archive whose extraction raises
exits with the scratch download file AND the scratch extraction directory
still on disk — the cleanup block is only reached from the copy phase
onward, so the extraction-failure exit path leaks both. -/
theorem c1_counterexample_scratch_leak :
    (get_from_cache "http://host/model.zip" ["c"] [] ⟨200, "bytes", none, none⟩).result
      = Except.error Err.extractionError ∧
    (get_from_cache "http://host/model.zip" ["c"] [] ⟨200, "bytes", none, none⟩).scratchFileExists
      = true ∧
    (get_from_cache "http://host/model.zip" ["c"] [] ⟨200, "bytes", none, none⟩).scratchDirExists
      = true :=
  ⟨rfl, rfl, rfl⟩

/-- C1 amended: for a fetch that reaches the download phase, the scratch
file and scratch directory no longer exist on return only on the exit
paths that reach the install phase's cleanup block: successful install
(archive or not) and archive install failure.  (Download failure,
extraction failure, and non-archive install failure leak scratch state.)
The hypothesis `h4` selects exactly those paths: a recognized archive
suffix with a successful extraction, or a non-archive suffix with a
fault-free copy. -/
theorem c1_amended_scratch_cleanup (url : String) (p : List String)
    (cache : List (String × FsTree)) (env : FetchEnv) (dn sfx : String)
    (h1 : split_filename_suffix (stripDirsPrefix url) = (dn, sfx))
    (h2 : match_file dn (cache.map Prod.fst) = Except.ok "")
    (h3 : findEntry cache dn = none)
    (hs : env.status = 200)
    (h4 : ((sfx = ".zip" ∨ sfx = ".tar.gz") ∧ (∃ items, env.extracted = some items)) ∨
          (¬(sfx = ".zip" ∨ sfx = ".tar.gz") ∧ env.copyFault = none)) :
    (get_from_cache url p cache env).scratchFileExists = false ∧
    (get_from_cache url p cache env).scratchDirExists = false := by
  rw [get_from_cache_miss url p cache env dn sfx h1 h2 h3]
  unfold downloadPhase
  rcases h4 with ⟨ha, items, hex⟩ | ⟨hna, hcf⟩
  · rcases hc : env.copyFault with _ | k
    · simp [hs, ha, hex, hc, installArchive]
    · by_cases hk : k < (collapseChildren items).length
      · simp [hs, ha, hex, hc, hk]
      · simp [hs, ha, hex, hc, hk, installArchive]
  · simp [hs, hna, hcf, installFile]

/-- Witness for the amended C1: a successful archive fetch cleans up the
scratch file and scratch directory. -/
theorem c1_amended_witness :
    (get_from_cache "http://host/m.zip" ["c"] [] ⟨200, "b", some [], none⟩).scratchFileExists
      = false ∧
    (get_from_cache "http://host/m.zip" ["c"] [] ⟨200, "b", some [], none⟩).scratchDirExists
      = false :=
  c1_amended_scratch_cleanup "http://host/m.zip" ["c"] [] ⟨200, "b", some [], none⟩ "m" ".zip"
    rfl rfl rfl rfl (Or.inl ⟨Or.inl rfl, ⟨[], rfl⟩⟩)

/-- C2: evaluation of the code at a failing non-archive install.  Line
307 rebinds `cache_path` to a plain `str`, so the `finally` block's
`cache_path.exists()` raises `AttributeError`: the original copy error is
replaced, the partially written destination `data.json` survives under
the cache root, and the scratch download file is leaked — contradicting
the claimed remove-destination-and-re-raise behavior, which the
`try/finally` structure plainly intends. -/
theorem c2_cleanup_crash_on_non_archive_failure :
    (get_from_cache "http://host/data.json" ["c"] [] ⟨200, "abc", none, some 0⟩).result
      = Except.error (Err.attributeError "str object has no attribute exists") ∧
    (get_from_cache "http://host/data.json" ["c"] [] ⟨200, "abc", none, some 0⟩).cache
      = [("data.json", FsTree.file "")] ∧
    (get_from_cache "http://host/data.json" ["c"] [] ⟨200, "abc", none, some 0⟩).scratchFileExists
      = true :=
  ⟨rfl, rfl, rfl⟩

/-- C4: evaluation of the code at a re-downloading second fetch.  The
first fetch of `http://host/a*b.json` installs the file `a*b.json`; the
second fetch of the same URL against the unchanged cache performs network
I/O again, because `match_file` hands the base name `a*b` to `re.match`
as a regex, under which `a*b` does not match the installed entry (or even
itself), and the bare entry path `a*b` does not exist — contradicting the
claimed no-network idempotence of the HIT path. -/
theorem c4_second_fetch_redownloads :
    (get_from_cache "http://host/a*b.json" ["c"] [] ⟨200, "vec", none, none⟩).result
      = Except.ok ["c", "a*b.json"] ∧
    (get_from_cache "http://host/a*b.json" ["c"] [] ⟨200, "vec", none, none⟩).cache
      = [("a*b.json", FsTree.file "vec")] ∧
    (get_from_cache "http://host/a*b.json" ["c"] [("a*b.json", FsTree.file "vec")]
      ⟨200, "vec", none, none⟩).networkUsed = true :=
  ⟨rfl, rfl, rfl⟩

/-- C7: after a successful archive fetch, the installed cache entry is
the extraction listing with the single-inner-directory collapse applied
exactly once: a listing of exactly one directory installs that inner
directory's children (even when the inner directory itself holds exactly
one directory — no second collapse, as the arbitrary `inner` shows), and
any other listing (zero entries, several entries, or a sole non-directory
entry) installs unchanged. -/
theorem c7_single_dir_collapse_once (p : List String) (cache : List (String × FsTree))
    (c : String)
    (h2 : match_file "res" (cache.map Prod.fst) = Except.ok "")
    (h3 : findEntry cache "res" = none) :
    (∀ (a : String) (inner : List (String × FsTree)),
      findEntry (get_from_cache "http://host/res.zip" p cache
        ⟨200, c, some [(a, FsTree.dir inner)], none⟩).cache "res" = some (FsTree.dir inner)) ∧
    (∀ items : List (String × FsTree),
      (∀ (a : String) (t : List (String × FsTree)), items ≠ [(a, FsTree.dir t)]) →
      findEntry (get_from_cache "http://host/res.zip" p cache
        ⟨200, c, some items, none⟩).cache "res" = some (FsTree.dir items)) := by
  constructor
  · intro a inner
    rw [get_from_cache_miss "http://host/res.zip" p cache _ "res" ".zip" rfl h2 h3]
    unfold downloadPhase
    simp [installArchive, collapseChildren, findEntry_setEntry_self]
  · intro items hit
    rw [get_from_cache_miss "http://host/res.zip" p cache _ "res" ".zip" rfl h2 h3]
    unfold downloadPhase
    simp [installArchive, collapseChildren_eq_self items hit, findEntry_setEntry_self]

/-- Witness for C7: a wrapping directory `demo` whose sole child is
itself a sole directory `x` is collapsed exactly once (the entry keeps
`x` as its child), and a two-file listing installs unchanged. -/
theorem c7_witness :
    findEntry (get_from_cache "http://host/res.zip" ["c"] []
      ⟨200, "b", some [("demo", FsTree.dir [("x", FsTree.dir [("y", FsTree.file "1")])])],
        none⟩).cache "res"
      = some (FsTree.dir [("x", FsTree.dir [("y", FsTree.file "1")])]) ∧
    findEntry (get_from_cache "http://host/res.zip" ["c"] []
      ⟨200, "b", some [("f", FsTree.file "u"), ("g", FsTree.file "v")], none⟩).cache "res"
      = some (FsTree.dir [("f", FsTree.file "u"), ("g", FsTree.file "v")]) :=
  ⟨(c7_single_dir_collapse_once ["c"] [] "b" rfl rfl).1 "demo"
      [("x", FsTree.dir [("y", FsTree.file "1")])],
   (c7_single_dir_collapse_once ["c"] [] "b" rfl rfl).2
      [("f", FsTree.file "u"), ("g", FsTree.file "v")] (by intro a t h; simp at h)⟩

/-- C9: a fetch of a URL whose trailing segment has no dot (empty derived
suffix) that downloads successfully takes the non-archive branch: no
extraction is attempted, and the bytes are installed as a single file
named exactly the bare base name (appending the empty suffix changes
nothing), which is also the returned path. -/
theorem c9_no_dot_installs_bare_file (url : String) (p : List String)
    (cache : List (String × FsTree)) (env : FetchEnv) (dn : String)
    (h1 : split_filename_suffix (stripDirsPrefix url) = (dn, ""))
    (h2 : match_file dn (cache.map Prod.fst) = Except.ok "")
    (h3 : findEntry cache dn = none)
    (hs : env.status = 200)
    (hcf : env.copyFault = none) :
    (get_from_cache url p cache env).result = Except.ok (p ++ [dn]) ∧
    findEntry (get_from_cache url p cache env).cache dn = some (FsTree.file env.content) ∧
    (get_from_cache url p cache env).extractionAttempted = false := by
  rw [get_from_cache_miss url p cache env dn "" h1 h2 h3]
  unfold downloadPhase
  have hno : ¬(("" : String) = ".zip" ∨ ("" : String) = ".tar.gz") := by decide
  simp [hs, hno, hcf, installFile, string_append_empty, findEntry_setEntry_self,
    get_filepath_node]

/-- Witness for C9: fetching `http://host/vocab` installs the file
`vocab`. -/
theorem c9_witness :
    (get_from_cache "http://host/vocab" ["c"] [] ⟨200, "words", none, none⟩).result
      = Except.ok ["c", "vocab"] ∧
    findEntry (get_from_cache "http://host/vocab" ["c"] [] ⟨200, "words", none, none⟩).cache
      "vocab" = some (FsTree.file "words") ∧
    (get_from_cache "http://host/vocab" ["c"] [] ⟨200, "words", none, none⟩).extractionAttempted
      = false :=
  c9_no_dot_installs_bare_file "http://host/vocab" ["c"] [] ⟨200, "words", none, none⟩ "vocab"
    rfl rfl rfl rfl rfl
